import Mathlib

/-!
Verification of the daily-report script (`daily_report_line_bot.py`).

The script is a linear pipeline: read configuration, compute the UTC+8
"yesterday" date window, fetch Facebook / Instagram / GA4 metrics, format a
message, push it.  We embed it shallowly:

* Provider HTTP responses are inputs.  `requests.get(...).json()` is modelled
  as `Except Unit Json`: `Except.error` is a raised exception (network error,
  invalid JSON body); `Except.ok j` is the decoded JSON document `j`.  A non-200
  provider response still decodes to some `Json` value, so it is covered by the
  `Except.ok` case with unexpected fields.
* Python `dict.get` on a non-dict raises (`AttributeError`), modelled by
  `Except.error`.  Python truthiness (`x or y`) and the numeric coercion
  (`isinstance(v, (int, float))` then `int(v)`, where a Python `bool` is an
  `int`) are modelled exactly; floats are modelled as rationals (every JSON
  number is one) with `int(·)` as truncation toward zero.
* The GA4 client returns protobuf rows whose `metric_values[i].value` is a
  string; `int(str)` is modelled by `pyIntOfString` (ASCII digits, sign,
  surrounding whitespace, single underscores between digits).  The transient
  credential file and environment-variable write in `ga4_yesterday` are
  process-external IO with no effect on the returned values and are not
  modelled.
* Each fetcher also returns the list of HTTP requests it issued (`Call`), so
  that "no request before the credential check", "skipped provider", and
  "exactly one push, no retry" are statable.
-/

/-- A JSON value as Python's `json` module decodes it.  A float is carried as
the exact rational it denotes (binary64 floats are rationals); the only
operations the script applies to one are truthiness and `int(·)` truncation,
on which the rational model agrees with the float. -/
inductive Json where
  | jnull
  | jbool (b : Bool)
  | jint (n : Int)
  | jfloat (q : Rat)
  | jstr (s : String)
  | jarr (xs : List Json)
  | jobj (fields : List (String × Json))

/-- Python truthiness of a decoded JSON value. -/
def truthy : Json → Bool
  | .jnull => false
  | .jbool b => b
  | .jint n => n != 0
  | .jfloat q => q != 0
  | .jstr s => s.length != 0
  | .jarr xs => !xs.isEmpty
  | .jobj fs => !fs.isEmpty

/-- Field lookup in a decoded JSON object (Python dict keys are unique). -/
def getEntry : List (String × Json) → String → Option Json
  | [], _ => none
  | (k, v) :: rest, key => if k == key then some v else getEntry rest key

/-- Python `x.get(key)`: `none` for a missing key, raises (`AttributeError`)
when `x` is not a dict. -/
def dictGet : Json → String → Except Unit (Option Json)
  | .jobj fs, k => .ok (getEntry fs k)
  | _, _ => .error ()

/-- Python `x.get(key, d)` with a default. -/
def dictGetD (j : Json) (k : String) (d : Json) : Except Unit Json :=
  match j with
  | .jobj fs => .ok ((getEntry fs k).getD d)
  | _ => .error ()

/-- Python `a or b` on two expressions that may be `None` (`none` is falsy). -/
def pyOr (a b : Option Json) : Option Json :=
  match a with
  | some v => if truthy v then some v else b
  | none => b

/-- Python `a or b` on two JSON values. -/
def pyOrJ (a b : Json) : Json := if truthy a then a else b

/-- Python `int(f)` on a float: truncation toward zero. -/
def ratTrunc (q : Rat) : Int := Int.tdiv q.num (q.den : Int)

/-- Lines 54-55 of the source: `int(v) if isinstance(v, (int, float)) else None`.
A Python `bool` is an instance of `int` (`int(True) = 1`). -/
def numOrNone : Option Json → Option Int
  | some (.jint n) => some n
  | some (.jfloat q) => some (ratTrunc q)
  | some (.jbool b) => some (if b then 1 else 0)
  | _ => none

/-- One decimal digit char. -/
def digitVal (c : Char) : Option Nat :=
  if '0' ≤ c ∧ c ≤ '9' then some (c.toNat - '0'.toNat) else none

/-- Digits of a Python int literal body, single underscores allowed between
digits ("1_000"), none leading, trailing or doubled. -/
def pdRun : List Char → Nat → Bool → Option Nat
  | [], acc, afterDigit => if afterDigit then some acc else none
  | c :: rest, acc, afterDigit =>
    match digitVal c with
    | some d => pdRun rest (acc * 10 + d) true
    | none =>
      if c = '_' ∧ afterDigit then
        match rest with
        | r :: _ => if (digitVal r).isSome then pdRun rest acc false else none
        | [] => none
      else none

/-- Python `int(s)` on a string: surrounding whitespace stripped, optional
sign, decimal digits; raises `ValueError` otherwise.  (Only ASCII digits are
modelled; the providers emit nothing else.) -/
def pyIntOfString (s : String) : Except Unit Int :=
  let l := ((s.data.dropWhile Char.isWhitespace).reverse.dropWhile Char.isWhitespace).reverse
  match l with
  | '+' :: rest =>
    match pdRun rest 0 false with
    | some n => .ok (Int.ofNat n)
    | none => .error ()
  | '-' :: rest =>
    match pdRun rest 0 false with
    | some n => .ok (-(Int.ofNat n))
    | none => .error ()
  | _ =>
    match pdRun l 0 false with
    | some n => .ok (Int.ofNat n)
    | none => .error ()

/-- Python `int(x)` on a decoded JSON value: ints, bools and floats convert,
strings parse, anything else raises `TypeError`. -/
def pyInt : Json → Except Unit Int
  | .jint n => .ok n
  | .jbool b => .ok (if b then 1 else 0)
  | .jfloat q => .ok (ratTrunc q)
  | .jstr s => pyIntOfString s
  | _ => .error ()

/-- Python `name == "lit"` where `name` came from `item.get("name")`: only a
string equal to the literal compares true. -/
def isName (v : Option Json) (s : String) : Bool :=
  match v with
  | some (.jstr t) => t == s
  | _ => false

/-- Python `values[0]` inside the loop body: the item the script then calls
`.get` on.  `values` is known truthy there; for a truthy non-array the body
raises on its first operation (`TypeError` on indexing a number, or
`AttributeError` on `.get` of the string or dict-key the indexing yields),
so every non-array case is an exception. -/
def headErr (j : Json) : Except Unit Json :=
  match j with
  | .jarr (x :: _) => .ok x
  | _ => .error ()

/-- Python `for post in coll` where the loop body immediately calls
`post.get`: iterating an array yields its items; by this point `coll` is
truthy or `[]` (after `or []`), and iterating a truthy non-array raises in
the loop's first operation (`TypeError` for a number, `AttributeError` on
`.get` of a string character or a dict key), so every non-array case is an
exception. -/
def iterList (j : Json) : Except Unit (List Json) :=
  match j with
  | .jarr xs => .ok xs
  | _ => .error ()

/-- `row.metric_values[i]`: raises `IndexError` past the end. -/
def nthErr : List String → Nat → Except Unit String
  | [], _ => .error ()
  | x :: _, 0 => .ok x
  | _ :: xs, n + 1 => nthErr xs n

/-- One HTTP request the script issues. -/
inductive Call where
  | fbAuth
  | fbPage
  | fbFeed
  | igCall (since u : String)
  | ga4Call (since u : String)
  | pushCall (msg : String)

/-- Lines 69-71: reactions/comments totals of one post, the `or 0` defaults,
and the two `int(·)` conversions. -/
def postInteraction (post : Json) : Except Unit Int := do
  let r1 ← dictGetD post "reactions" (.jobj [])
  let r2 ← dictGetD r1 "summary" (.jobj [])
  let r3 ← dictGetD r2 "total_count" (.jint 0)
  let rc := pyOrJ r3 (.jint 0)
  let c1 ← dictGetD post "comments" (.jobj [])
  let c2 ← dictGetD c1 "summary" (.jobj [])
  let c3 ← dictGetD c2 "total_count" (.jint 0)
  let cc := pyOrJ c3 (.jint 0)
  let ri ← pyInt rc
  let ci ← pyInt cc
  .ok (ri + ci)

/-- Lines 66-72: the feed loop accumulating `interaction_sum` and `has_any`. -/
def sumInteractions : List Json → Except Unit (Int × Bool)
  | [] => .ok (0, false)
  | post :: rest => do
    let i ← postInteraction post
    let s ← sumInteractions rest
    .ok (i + s.1, true)

/-- The body of `get_fb_stable_stats`'s `try` block, lines 38-75, paired with
the requests issued so far.  Any `Except.error` is an exception the
surrounding `except` catches. -/
def fbBody (authRes pRes fRes : Except Unit Json) :
    Except Unit (Option Int × Option Int) × List Call :=
  match authRes with
  | .error e => (.error e, [.fbAuth])
  | .ok a =>
    match dictGet a "access_token" with
    | .error e => (.error e, [.fbAuth])
    | .ok _pageTok =>
      match pRes with
      | .error e => (.error e, [.fbAuth, .fbPage])
      | .ok p =>
        match dictGet p "followers_count" with
        | .error e => (.error e, [.fbAuth, .fbPage])
        | .ok fv =>
          match dictGet p "fan_count" with
          | .error e => (.error e, [.fbAuth, .fbPage])
          | .ok cv =>
            let total_fans := numOrNone (pyOr fv cv)
            match fRes with
            | .error e => (.error e, [.fbAuth, .fbPage, .fbFeed])
            | .ok f =>
              match dictGetD f "data" (.jarr []) with
              | .error e => (.error e, [.fbAuth, .fbPage, .fbFeed])
              | .ok d0 =>
                match iterList (pyOrJ d0 (.jarr [])) with
                | .error e => (.error e, [.fbAuth, .fbPage, .fbFeed])
                | .ok posts =>
                  match sumInteractions posts with
                  | .error e => (.error e, [.fbAuth, .fbPage, .fbFeed])
                  | .ok s =>
                    let interactions := if s.2 then s.1 else 0
                    (.ok (total_fans, some interactions), [.fbAuth, .fbPage, .fbFeed])

/-- `get_fb_stable_stats` (lines 29-78): the whole body is inside
`try ... except Exception: return None, None`.  The three `Except Unit Json`
arguments are the decoded bodies of its three HTTP requests (token exchange,
page fields, posts feed). -/
def get_fb_stable_stats (_page_id _token : String)
    (authRes pRes fRes : Except Unit Json) : (Option Int × Option Int) × List Call :=
  match fbBody authRes pRes fRes with
  | (.ok r, t) => (r, t)
  | (.error _, t) => ((none, none), t)

/-- Lines 103-112: the insights loop.  `continue` on falsy `values`; each of
the two `if name == ... and isinstance(...)` guards assigns independently. -/
def igLoop : List Json → Option Int → Option Int → Except Unit (Option Int × Option Int)
  | [], reach, impr => .ok (reach, impr)
  | item :: rest, reach, impr => do
    let name ← dictGet item "name"
    let vs0 ← dictGetD item "values" (.jarr [])
    let vs := pyOrJ vs0 (.jarr [])
    if truthy vs then do
      let first ← headErr vs
      let v ← dictGet first "value"
      let reach2 := match numOrNone v with
        | some n => if isName name "reach" then some n else reach
        | none => reach
      let impr2 := match numOrNone v with
        | some n => if isName name "impressions" then some n else impr
        | none => impr
      igLoop rest reach2 impr2
    else
      igLoop rest reach impr

/-- Lines 99-114: decode `data` (with default and `or []`) and run the loop. -/
def igParse (r : Json) : Except Unit (Option Int × Option Int) := do
  let d0 ← dictGetD r "data" (.jarr [])
  let items ← iterList (pyOrJ d0 (.jarr []))
  igLoop items none none

/-- `get_ig_insights` (lines 81-117): early `(None, None)` without a request
when `ig_id` is empty; otherwise one request whose decoded body is `rRes`,
with the whole `try` block collapsing to `(None, None)` on any exception. -/
def get_ig_insights (ig_id _token : String) (since u : String)
    (rRes : Except Unit Json) : (Option Int × Option Int) × List Call :=
  if ig_id = "" then ((none, none), [])
  else
    match rRes with
    | .error _ => ((none, none), [.igCall since u])
    | .ok r =>
      match igParse r with
      | .ok res => (res, [.igCall since u])
      | .error _ => ((none, none), [.igCall since u])

/-- One GA4 report row: the `metric_values[i].value` strings (always strings
in the protobuf response). -/
structure Ga4Row where
  metric_values : List String

/-- `ga4_yesterday` (lines 122-146).  `report` is the outcome of
`client.run_report(req)`: `Except.error` when the client raises.  There is no
`try` around this fetcher, so every exception propagates to the caller —
including `ValueError` from `int(...)` on a non-integer metric string and
`IndexError` on a short row.  Zero rows return `(None, None, None)`.  The
credential file written to /tmp and the environment variable are IO without
effect on the returned values. -/
def ga4_yesterday (_property_id _credentials_json : String) (since u : String)
    (report : Except Unit (List Ga4Row)) :
    Except Unit (Option Int × Option Int × Option Int) × List Call :=
  match report with
  | .error e => (.error e, [.ga4Call since u])
  | .ok rows =>
    match rows with
    | [] => (.ok (none, none, none), [.ga4Call since u])
    | row :: _ =>
      let res : Except Unit (Option Int × Option Int × Option Int) := do
        let s0 ← nthErr row.metric_values 0
        let a ← pyIntOfString s0
        let s1 ← nthErr row.metric_values 1
        let b ← pyIntOfString s1
        let s2 ← nthErr row.metric_values 2
        let c ← pyIntOfString s2
        .ok (some a, some b, some c)
      (res, [.ga4Call since u])

/-- One decimal digit rendered as a char. -/
def digitChar : Nat → Char
  | 0 => '0'
  | 1 => '1'
  | 2 => '2'
  | 3 => '3'
  | 4 => '4'
  | 5 => '5'
  | 6 => '6'
  | 7 => '7'
  | 8 => '8'
  | 9 => '9'
  | _ => '0'

/-- Decimal digits of a natural number, most significant first; structural
recursion on a fuel argument so that the kernel can evaluate it (`n + 1` units
of fuel always suffice, as each step divides `n` by ten). -/
def natDigitsAux : Nat → Nat → List Char
  | 0, _ => []
  | fuel + 1, n =>
    if n < 10 then [digitChar n]
    else natDigitsAux fuel (n / 10) ++ [digitChar (n % 10)]

/-- Decimal digits of a natural number, most significant first. -/
def natDigits (n : Nat) : List Char := natDigitsAux (n + 1) n

/-- Walk the digits least-significant first, inserting a comma before every
digit whose (0-based) position from the right is a positive multiple of 3:
this is Python's `f"{n:,}"` grouping, applied to the reversed digit list. -/
def commasRev : List Char → Nat → List Char
  | [], _ => []
  | c :: rest, k =>
    if k % 3 = 0 ∧ k ≠ 0 then ',' :: c :: commasRev rest (k + 1)
    else c :: commasRev rest (k + 1)

/-- Python `f"{n:,}"`: decimal digits grouped in threes by commas, a minus
sign in front of a negative number. -/
def intGrouped (n : Int) : String :=
  (if n < 0 then "-" else "") ++ String.mk (commasRev (natDigits n.natAbs).reverse 0).reverse

/-- `fmt` (lines 149-150): `"N/A" if n is None else f"{n:,}"`. -/
def fmt : Option Int → String
  | none => "N/A"
  | some n => intGrouped n

/-- Civil (Gregorian) date of a day number (days since 1970-01-01), as
(year, month, day); the standard era-based algorithm, which is what
`datetime.date` arithmetic and `isoformat` realize. -/
def civilFromDays (z0 : Int) : Int × Int × Int :=
  let z := z0 + 719468
  let era := Int.fdiv z 146097
  let doe := z - era * 146097
  let yoe := Int.fdiv (doe - Int.fdiv doe 1460 + Int.fdiv doe 36524 - Int.fdiv doe 146096) 365
  let y := yoe + era * 400
  let doy := doe - (365 * yoe + Int.fdiv yoe 4 - Int.fdiv yoe 100)
  let mp := Int.fdiv (5 * doy + 2) 153
  let d := doy - Int.fdiv (153 * mp + 2) 5 + 1
  let m := mp + (if mp < 10 then 3 else -9)
  (y + (if m ≤ 2 then 1 else 0), m, d)

/-- Left-pad a digit list with zeros to width `k`. -/
def padZeros (k : Nat) (l : List Char) : List Char :=
  List.replicate (k - l.length) '0' ++ l

/-- `ymd` (lines 11-12): `d.isoformat()`, "YYYY-MM-DD" zero-padded, over the
day number of the date.  (A minus sign in front of a negative year totalizes
the function outside `datetime.date`'s 1..9999 year range.) -/
def ymd (day : Int) : String :=
  let c := civilFromDays day
  String.mk ((if c.1 < 0 then ['-'] else []) ++ padZeros 4 (natDigits c.1.natAbs) ++
    ['-'] ++ padZeros 2 (natDigits c.2.1.natAbs) ++ ['-'] ++ padZeros 2 (natDigits c.2.2.natAbs))

/-- `TZ_TAIPEI` (line 8): a fixed UTC+8 offset, in seconds. -/
def TZ_TAIPEI : Int := 8 * 3600

/-- `datetime.now(tz).date()` as a day number: the civil date, in the zone
passed (or in the host's local zone when `none` is passed — the script always
passes `TZ_TAIPEI`), of the absolute instant `epoch` (seconds). -/
def datetimeNowDate (hostTz : Int) (epoch : Int) (tz : Option Int) : Int :=
  Int.fdiv (epoch + tz.getD hostTz) 86400

/-- Lines 192-205: the message f-string.  `since` is interpolated once and
each metric slot is rendered by `fmt`. -/
def buildMsg (since : String)
    (fb_fans fb_interact ig_reach ig_impr ga_active ga_total ga_views : Option Int) : String :=
  "📊 24 小時匯總（以昨天為單位）\n日期：" ++ since ++
  "\n\nFacebook\n- 總追蹤人數：" ++ fmt fb_fans ++
  "\n- 近五篇貼文互動：" ++ fmt fb_interact ++
  "\n\nInstagram\n- 昨日觸及：" ++ fmt ig_reach ++
  "\n- 昨日曝光：" ++ fmt ig_impr ++
  "\n\n官網（GA4）\n- 活躍使用者：" ++ fmt ga_active ++
  "\n- 使用者總數：" ++ fmt ga_total ++
  "\n- 頁面瀏覽次數：" ++ fmt ga_views

/-- The configuration read from the environment (lines 155-167); an unset
variable reads as the empty string (`os.environ.get(..., "")`). -/
structure Env where
  line_token : String
  line_to : String
  meta_token : String
  fb_page_id : String
  ig_user_id : String
  ga4_property_id : String
  ga4_credentials_json : String

/-- The run's external world: the clock and each provider's behaviour.
`pushResult` is the LINE push endpoint's HTTP status (or a raised network
error). -/
structure World where
  nowEpoch : Int
  fbAuthRes : Except Unit Json
  fbPageRes : Except Unit Json
  fbFeedRes : Except Unit Json
  igRes : Except Unit Json
  ga4Report : Except Unit (List Ga4Row)
  pushResult : Except Unit Nat

/-- `line_push` (lines 15-24): raises unless the push endpoint answers 200. -/
def line_push (status : Except Unit Nat) : Except Unit Unit :=
  match status with
  | .error e => .error e
  | .ok s => if s ≠ 200 then .error () else .ok ()

/-- Line 172: `since = ymd(yday)` with `yday = datetime.now(TZ_TAIPEI).date()
- timedelta(days=1)`. -/
def sinceOf (hostTz : Int) (w : World) : String :=
  ymd (datetimeNowDate hostTz w.nowEpoch (some TZ_TAIPEI) - 1)

/-- Line 173: `until = ymd(yday)`, computed the same way. -/
def untilOf (hostTz : Int) (w : World) : String :=
  ymd (datetimeNowDate hostTz w.nowEpoch (some TZ_TAIPEI) - 1)

/-- Lines 176-178: the FB fetch, gated on both Meta credentials. -/
def mainFB (env : Env) (w : World) : (Option Int × Option Int) × List Call :=
  if env.meta_token ≠ "" ∧ env.fb_page_id ≠ "" then
    get_fb_stable_stats env.fb_page_id env.meta_token w.fbAuthRes w.fbPageRes w.fbFeedRes
  else ((none, none), [])

/-- Lines 181-183: the IG fetch, gated on token and IG user id. -/
def mainIG (env : Env) (hostTz : Int) (w : World) : (Option Int × Option Int) × List Call :=
  if env.meta_token ≠ "" ∧ env.ig_user_id ≠ "" then
    get_ig_insights env.ig_user_id env.meta_token (sinceOf hostTz w) (untilOf hostTz w) w.igRes
  else ((none, none), [])

/-- Lines 186-190: the GA4 fetch, gated on property id and credential payload. -/
def mainGA (env : Env) (hostTz : Int) (w : World) :
    Except Unit (Option Int × Option Int × Option Int) × List Call :=
  if env.ga4_property_id ≠ "" ∧ env.ga4_credentials_json ≠ "" then
    ga4_yesterday env.ga4_property_id env.ga4_credentials_json
      (sinceOf hostTz w) (untilOf hostTz w) w.ga4Report
  else (.ok (none, none, none), [])

/-- `main` (lines 153-207), named `mainRun` because Lean reserves `main`: the
run's outcome and the HTTP requests issued, in order.  The credential check
(lines 157-158) raises before anything else; an uncaught GA4 exception aborts
the run before the message is built; the push is attempted exactly once and
raises on any non-200 answer. -/
def mainRun (env : Env) (hostTz : Int) (w : World) : Except Unit Unit × List Call :=
  if env.line_token = "" ∨ env.line_to = "" then (.error (), [])
  else
    match mainGA env hostTz w with
    | (.error e, gt) => (.error e, (mainFB env w).2 ++ (mainIG env hostTz w).2 ++ gt)
    | (.ok ga, gt) =>
      let msg := buildMsg (sinceOf hostTz w)
        (mainFB env w).1.1 (mainFB env w).1.2
        (mainIG env hostTz w).1.1 (mainIG env hostTz w).1.2
        ga.1 ga.2.1 ga.2.2
      let trace := (mainFB env w).2 ++ (mainIG env hostTz w).2 ++ gt ++ [Call.pushCall msg]
      (line_push w.pushResult, trace)

/-- Whether `p` is a leading segment of `l`. -/
def isLead : List Char → List Char → Bool
  | [], _ => true
  | _ :: _, [] => false
  | p :: ps, c :: cs => p == c && isLead ps cs

/-- Number of positions of `l` at which the pattern `p` starts an occurrence. -/
def countOccur (p : List Char) : List Char → Nat
  | [] => 0
  | c :: cs => (if isLead p (c :: cs) then 1 else 0) + countOccur p cs

/-- The character alphabet of every interpolated value of the message: digits,
the grouping comma, a minus sign, and the letters of the absence marker
"N/A". -/
def valChar (c : Char) : Bool :=
  c.isDigit || c == ',' || c == '-' || c == 'N' || c == '/' || c == 'A'

/-- The character alphabet of a rendered date: digits and the dash. -/
def dateChar (c : Char) : Bool := c.isDigit || c == '-'

/-- The message's fixed section and metric labels (the metric labels as they
name the metrics, without the surrounding "- " and "：" punctuation). -/
def msgLabels : List String :=
  ["Facebook", "Instagram", "官網（GA4）", "總追蹤人數", "近五篇貼文互動",
   "昨日觸及", "昨日曝光", "活躍使用者", "使用者總數", "頁面瀏覽次數"]

/-- Whether a call is the LINE push. -/
def isPush : Call → Bool
  | .pushCall _ => true
  | _ => false

/-- The date window a call carries, for the calls that take one. -/
def callWindow : Call → Option (String × String)
  | .igCall s u => some (s, u)
  | .ga4Call s u => some (s, u)
  | _ => none

/-- Fixture: a successful token-exchange response. -/
def okAuth : Except Unit Json := .ok (.jobj [("access_token", .jstr "tok")])

/-- Fixture: a successful posts-feed response whose feed holds no posts. -/
def emptyFeed : Except Unit Json := .ok (.jobj [("data", .jarr [])])

/-- Fixture: a world where every provider errors and the push succeeds. -/
def wFix : World :=
  ⟨0, .error (), .error (), .error (), .error (), .error (), .ok 200⟩

/-- Fixture: a configuration with only the LINE credentials set. -/
def envFix : Env := ⟨"lineTok", "lineTo", "", "", "", "", ""⟩

/-- Fixture: a world where the push endpoint answers 403. -/
def wPushFail : World :=
  ⟨0, .error (), .error (), .error (), .error (), .ok [], .ok 403⟩

/-- The Instagram reach slot returned for a single insights item named
"reach" whose first value is `v` (a response shape fixture used to state the
coercion policy through the fetcher). -/
def igReachOf (tok s u : String) (v : Json) : Option Int :=
  (get_ig_insights "ig" tok s u (Except.ok (Json.jobj [("data", Json.jarr
    [Json.jobj [("name", Json.jstr "reach"),
      ("values", Json.jarr [Json.jobj [("value", v)]])]])]))).1.1

/-- The Facebook total-fans slot returned when the page-fields call yields
`{"followers_count": v}` (with `fan_count` missing) and the feed is empty. -/
def fbFansOf (tok : String) (v : Json) : Option Int :=
  (get_fb_stable_stats "pg" tok okAuth
    (Except.ok (Json.jobj [("followers_count", v)])) emptyFeed).1.1

theorem isLead_append {p a : List Char} (b : List Char) (h : isLead p a = true) :
    isLead p (a ++ b) = true := by
  induction p generalizing a with
  | nil => rfl
  | cons q ps ih =>
    cases a with
    | nil => simp [isLead] at h
    | cons x xs =>
      simp [isLead] at h ⊢
      exact ⟨h.1, ih h.2⟩

theorem isLead_self_append (p b : List Char) : isLead p (p ++ b) = true := by
  induction p with
  | nil => rfl
  | cons q ps ih => simp [isLead, ih]

theorem countOccur_append_right_le (p a b : List Char) :
    countOccur p b ≤ countOccur p (a ++ b) := by
  induction a with
  | nil => exact Nat.le_refl _
  | cons x xs ih =>
    simp only [List.cons_append, countOccur]
    exact ih.trans (Nat.le_add_left _ _)

theorem countOccur_append_left_le (p a b : List Char) :
    countOccur p a ≤ countOccur p (a ++ b) := by
  induction a with
  | nil => exact Nat.zero_le _
  | cons x xs ih =>
    simp only [List.cons_append, countOccur]
    refine Nat.add_le_add ?_ ih
    by_cases h : isLead p (x :: xs)
    · have h2 := isLead_append b h
      simp only [List.cons_append] at h2
      simp [h, h2]
    · simp [h]

theorem countOccur_self_append_pos (p b : List Char) (hp : p ≠ []) :
    1 ≤ countOccur p (p ++ b) := by
  cases p with
  | nil => exact absurd rfl hp
  | cons q ps =>
    have h := isLead_self_append (q :: ps) b
    simp only [List.cons_append] at h ⊢
    simp only [countOccur, h, if_true]
    exact Nat.le_add_right 1 _

theorem isLead_trans {q p l : List Char} (h1 : isLead q p = true) (h2 : isLead p l = true) :
    isLead q l = true := by
  induction q generalizing p l with
  | nil => rfl
  | cons a qs ih =>
    cases p with
    | nil => simp [isLead] at h1
    | cons b ps =>
      cases l with
      | nil => simp [isLead] at h2
      | cons c ls =>
        simp [isLead] at h1 h2 ⊢
        exact ⟨h1.1.trans h2.1, ih h1.2 h2.2⟩

theorem countOccur_le_of_lead {q p : List Char} (h : isLead q p = true) (l : List Char) :
    countOccur p l ≤ countOccur q l := by
  induction l with
  | nil => exact Nat.le_refl _
  | cons c cs ih =>
    simp only [countOccur]
    refine Nat.add_le_add ?_ ih
    by_cases hp : isLead p (c :: cs)
    · simp [hp, isLead_trans h hp]
    · simp [hp]

theorem countOccur_skip {p mid : List Char} (hp : p ≠ []) (hdis : ∀ c ∈ mid, c ∉ p)
    (b : List Char) : countOccur p (mid ++ b) = countOccur p b := by
  induction mid with
  | nil => rfl
  | cons m ms ih =>
    have hm : m ∉ p := hdis m (List.mem_cons_self m ms)
    have hrest : ∀ c ∈ ms, c ∉ p := fun c hc => hdis c (List.mem_cons_of_mem _ hc)
    have hlead : isLead p (m :: (ms ++ b)) = false := by
      cases p with
      | nil => exact absurd rfl hp
      | cons q ps =>
        by_cases hqm : q = m
        · exact absurd (hqm ▸ List.mem_cons_self q ps) hm
        · simp [isLead, hqm]
    simp [List.cons_append, countOccur, hlead, ih hrest]

theorem isLead_through {p mid : List Char} (hm : mid ≠ []) (hdis : ∀ c ∈ mid, c ∉ p)
    (a b : List Char) : isLead p (a ++ (mid ++ b)) = isLead p a := by
  induction p generalizing a with
  | nil => rfl
  | cons q ps ih =>
    cases a with
    | nil =>
      cases mid with
      | nil => exact absurd rfl hm
      | cons m ms =>
        have hqm : q ≠ m := by
          intro h
          exact hdis m (List.mem_cons_self m ms) (h ▸ List.mem_cons_self q ps)
        simp [isLead, hqm]
    | cons x xs =>
      have hdis' : ∀ c ∈ mid, c ∉ ps := fun c hc hmem => hdis c hc (List.mem_cons_of_mem _ hmem)
      simp only [List.cons_append, List.append_eq, isLead]
      rw [ih hdis' xs]

theorem countOccur_split {p mid : List Char} (hp : p ≠ []) (hm : mid ≠ [])
    (hdis : ∀ c ∈ mid, c ∉ p) (a b : List Char) :
    countOccur p (a ++ (mid ++ b)) = countOccur p a + countOccur p b := by
  induction a with
  | nil => simpa [countOccur] using countOccur_skip hp hdis b
  | cons x xs ih =>
    have hth := isLead_through hm hdis (x :: xs) b
    simp only [List.cons_append, List.append_eq] at hth
    simp only [List.cons_append, List.append_eq, countOccur, hth, ih]
    omega

theorem countOccur_strip_right {p v : List Char} (hp : p ≠ []) (hv : v ≠ [])
    (hdis : ∀ c ∈ v, c ∉ p) (a : List Char) :
    countOccur p (a ++ v) = countOccur p a := by
  have h := countOccur_split hp hv hdis a []
  simpa [countOccur] using h

theorem countOccur_infix_le (p a m b : List Char) :
    countOccur p m ≤ countOccur p (a ++ (m ++ b)) :=
  (countOccur_append_left_le p m b).trans (countOccur_append_right_le p a (m ++ b))

theorem digitChar_isDigit (k : Nat) : (digitChar k).isDigit = true := by
  unfold digitChar
  split <;> decide

theorem natDigitsAux_digits (fuel : Nat) : ∀ n c, c ∈ natDigitsAux fuel n → c.isDigit = true := by
  induction fuel with
  | zero =>
    intro n c hc
    simp [natDigitsAux] at hc
  | succ f ih =>
    intro n c hc
    unfold natDigitsAux at hc
    split at hc
    · simp at hc
      exact hc ▸ digitChar_isDigit n
    · rcases List.mem_append.mp hc with h1 | h2
      · exact ih (n / 10) c h1
      · simp at h2
        exact h2 ▸ digitChar_isDigit (n % 10)

theorem natDigits_digits (n : Nat) : ∀ c ∈ natDigits n, c.isDigit = true :=
  fun c hc => natDigitsAux_digits (n + 1) n c hc

theorem natDigits_ne (n : Nat) : natDigits n ≠ [] := by
  unfold natDigits natDigitsAux
  split <;> simp

theorem commasRev_chars (l : List Char) : ∀ k c, c ∈ commasRev l k → c ∈ l ∨ c = ',' := by
  induction l with
  | nil =>
    intro k c hc
    simp [commasRev] at hc
  | cons x xs ih =>
    intro k c hc
    unfold commasRev at hc
    split at hc <;> simp at hc <;>
      rcases hc with h | h
    · exact Or.inr h
    · rcases h with h | h
      · exact Or.inl (by simp [h])
      · rcases ih (k + 1) c h with h2 | h2
        · exact Or.inl (List.mem_cons_of_mem _ h2)
        · exact Or.inr h2
    · exact Or.inl (by simp [h])
    · rcases ih (k + 1) c h with h2 | h2
      · exact Or.inl (List.mem_cons_of_mem _ h2)
      · exact Or.inr h2

theorem commasRev_ne (l : List Char) (k : Nat) (h : l ≠ []) : commasRev l k ≠ [] := by
  cases l with
  | nil => exact absurd rfl h
  | cons x xs =>
    unfold commasRev
    split <;> simp

theorem intGrouped_chars (n : Int) : ∀ c ∈ (intGrouped n).data, valChar c = true := by
  intro c hc
  unfold intGrouped at hc
  rw [String.data_append] at hc
  rcases List.mem_append.mp hc with h1 | h2
  · split at h1 <;> simp at h1
    simp [valChar, h1]
  · have h3 : c ∈ (commasRev (natDigits n.natAbs).reverse 0).reverse := h2
    rw [List.mem_reverse] at h3
    rcases commasRev_chars _ 0 c h3 with h4 | h4
    · rw [List.mem_reverse] at h4
      have := natDigits_digits n.natAbs c h4
      simp [valChar, this]
    · simp [valChar, h4]

theorem intGrouped_ne (n : Int) : (intGrouped n).data ≠ [] := by
  unfold intGrouped
  rw [String.data_append]
  intro h
  rcases List.append_eq_nil.mp h with ⟨_, h2⟩
  have h3 : (commasRev (natDigits n.natAbs).reverse 0).reverse = [] := h2
  have h4 : (natDigits n.natAbs).reverse ≠ [] := by
    simpa using natDigits_ne n.natAbs
  exact commasRev_ne _ 0 h4 (by simpa using h3)

theorem fmt_chars (v : Option Int) : ∀ c ∈ (fmt v).data, valChar c = true := by
  cases v with
  | none =>
    intro c hc
    have h : c ∈ ['N', '/', 'A'] := hc
    simp at h
    rcases h with rfl | rfl | rfl <;> decide
  | some n => exact intGrouped_chars n

theorem fmt_ne (v : Option Int) : (fmt v).data ≠ [] := by
  cases v with
  | none => decide
  | some n => exact intGrouped_ne n

theorem dateChar_valChar {c : Char} (h : dateChar c = true) : valChar c = true := by
  simp [dateChar] at h
  rcases h with h | h
  · simp [valChar, h]
  · simp [valChar, h]

theorem ymd_chars (d : Int) : ∀ c ∈ (ymd d).data, dateChar c = true := by
  intro c hc
  simp only [ymd, List.append_assoc] at hc
  have hc2 : c ∈ (if (civilFromDays d).1 < 0 then ['-'] else []) ++
      (padZeros 4 (natDigits (civilFromDays d).1.natAbs) ++
      (['-'] ++ (padZeros 2 (natDigits (civilFromDays d).2.1.natAbs) ++
      (['-'] ++ padZeros 2 (natDigits (civilFromDays d).2.2.natAbs))))) := hc
  have hpad : ∀ k m, c ∈ padZeros k (natDigits m) → dateChar c = true := by
    intro k m hm
    rcases List.mem_append.mp hm with h1 | h2
    · have : c = '0' := List.eq_of_mem_replicate h1
      simp [dateChar, this]
    · have := natDigits_digits m c h2
      simp [dateChar, this]
  rcases List.mem_append.mp hc2 with h1 | h1
  · split at h1 <;> simp at h1
    simp [dateChar, h1]
  · rcases List.mem_append.mp h1 with h2 | h2
    · exact hpad _ _ h2
    · rcases List.mem_append.mp h2 with h3 | h3
      · simp at h3
        simp [dateChar, h3]
      · rcases List.mem_append.mp h3 with h4 | h4
        · exact hpad _ _ h4
        · rcases List.mem_append.mp h4 with h5 | h5
          · simp at h5
            simp [dateChar, h5]
          · exact hpad _ _ h5

theorem ymd_ne (d : Int) : (ymd d).data ≠ [] := by
  simp only [ymd]
  intro h
  simp [List.append_eq_nil] at h

theorem disjoint_of_valChar {p : List Char} (hdis : ∀ c ∈ p, valChar c = false)
    {l : List Char} (hl : ∀ c ∈ l, valChar c = true) : ∀ c ∈ l, c ∉ p := by
  intro c hc hcp
  have h1 := hl c hc
  have h2 := hdis c hcp
  rw [h1] at h2
  exact Bool.noConfusion h2

theorem countOccur_buildMsg (p : List Char) (hp : p ≠ [])
    (hdis : ∀ c ∈ p, valChar c = false) (d : String)
    (hd : ∀ c ∈ d.data, valChar c = true) (hdn : d.data ≠ [])
    (v1 v2 v3 v4 v5 v6 v7 : Option Int) :
    countOccur p (buildMsg d v1 v2 v3 v4 v5 v6 v7).data =
      countOccur p ("📊 24 小時匯總（以昨天為單位）\n日期：" : String).data +
      (countOccur p ("\n\nFacebook\n- 總追蹤人數：" : String).data +
      (countOccur p ("\n- 近五篇貼文互動：" : String).data +
      (countOccur p ("\n\nInstagram\n- 昨日觸及：" : String).data +
      (countOccur p ("\n- 昨日曝光：" : String).data +
      (countOccur p ("\n\n官網（GA4）\n- 活躍使用者：" : String).data +
      (countOccur p ("\n- 使用者總數：" : String).data +
      countOccur p ("\n- 頁面瀏覽次數：" : String).data)))))) := by
  have hdd := disjoint_of_valChar hdis hd
  have hf1 := disjoint_of_valChar hdis (fmt_chars v1)
  have hf2 := disjoint_of_valChar hdis (fmt_chars v2)
  have hf3 := disjoint_of_valChar hdis (fmt_chars v3)
  have hf4 := disjoint_of_valChar hdis (fmt_chars v4)
  have hf5 := disjoint_of_valChar hdis (fmt_chars v5)
  have hf6 := disjoint_of_valChar hdis (fmt_chars v6)
  have hf7 := disjoint_of_valChar hdis (fmt_chars v7)
  unfold buildMsg
  simp only [String.data_append, List.append_assoc]
  rw [countOccur_split hp hdn hdd]
  rw [countOccur_split hp (fmt_ne v1) hf1]
  rw [countOccur_split hp (fmt_ne v2) hf2]
  rw [countOccur_split hp (fmt_ne v3) hf3]
  rw [countOccur_split hp (fmt_ne v4) hf4]
  rw [countOccur_split hp (fmt_ne v5) hf5]
  rw [countOccur_split hp (fmt_ne v6) hf6]
  rw [countOccur_strip_right hp (fmt_ne v7) hf7]

/-- Claim C7: the formatter is a total function — for every Report (any
combination of absent and present metric values, any run date, including the
all-absent report) the rendered message contains every fixed section and
metric label exactly once; an absent value renders as the literal marker
"N/A" (the all-absent message contains the marker exactly seven times, one
per metric slot) and a present value as its thousands-grouped decimal
rendering (`fmt (some n) = intGrouped n`; for example 1234567 renders as
"1,234,567").  `buildMsg` and `fmt` are total Lean functions, so formatting
never fails. -/
theorem c7_formatter_total (day : Int) (v1 v2 v3 v4 v5 v6 v7 : Option Int) (n : Int) :
    List.Forall
      (fun L : String =>
        countOccur L.data (buildMsg (ymd day) v1 v2 v3 v4 v5 v6 v7).data = 1) msgLabels ∧
    fmt none = "N/A" ∧
    fmt (some n) = intGrouped n ∧
    fmt (some 1234567) = "1,234,567" ∧
    countOccur ("N/A" : String).data
      (buildMsg (ymd day) none none none none none none none).data = 7 := by
  have hdate : ∀ c ∈ (ymd day).data, valChar c = true :=
    fun c hc => dateChar_valChar (ymd_chars day c hc)
  refine ⟨?_, rfl, rfl, by decide, ?_⟩
  · simp only [msgLabels, List.Forall]
    refine ⟨?_, ?_, ?_, ?_, ?_, ?_, ?_, ?_, ?_, ?_⟩
    · rw [countOccur_buildMsg _ (by decide) (by decide) _ hdate (ymd_ne day)]
      decide
    · rw [countOccur_buildMsg _ (by decide) (by decide) _ hdate (ymd_ne day)]
      decide
    · have hup : countOccur ("官網（GA4）" : String).data
          (buildMsg (ymd day) v1 v2 v3 v4 v5 v6 v7).data ≤
          countOccur ("官網" : String).data (buildMsg (ymd day) v1 v2 v3 v4 v5 v6 v7).data :=
        countOccur_le_of_lead (by decide) _
      have how : countOccur ("官網" : String).data
          (buildMsg (ymd day) v1 v2 v3 v4 v5 v6 v7).data = 1 := by
        rw [countOccur_buildMsg _ (by decide) (by decide) _ hdate (ymd_ne day)]
        decide
      have hlow : 1 ≤ countOccur ("官網（GA4）" : String).data
          (buildMsg (ymd day) v1 v2 v3 v4 v5 v6 v7).data := by
        have hshape : (buildMsg (ymd day) v1 v2 v3 v4 v5 v6 v7).data =
            (("📊 24 小時匯總（以昨天為單位）\n日期：" : String).data ++ ((ymd day).data ++
            (("\n\nFacebook\n- 總追蹤人數：" : String).data ++ ((fmt v1).data ++
            (("\n- 近五篇貼文互動：" : String).data ++ ((fmt v2).data ++
            (("\n\nInstagram\n- 昨日觸及：" : String).data ++ ((fmt v3).data ++
            (("\n- 昨日曝光：" : String).data ++ ((fmt v4).data ++
            ("\n\n" : String).data)))))))))) ++
            ((("官網（GA4）" : String).data) ++
            (("\n- 活躍使用者：" : String).data ++ ((fmt v5).data ++
            (("\n- 使用者總數：" : String).data ++ ((fmt v6).data ++
            (("\n- 頁面瀏覽次數：" : String).data ++ (fmt v7).data)))))) := by
          unfold buildMsg
          simp only [String.data_append, List.append_assoc, List.cons_append,
            List.nil_append]
        calc (1 : Nat) ≤ countOccur ("官網（GA4）" : String).data
              (("官網（GA4）" : String).data ++
              (("\n- 活躍使用者：" : String).data ++ ((fmt v5).data ++
              (("\n- 使用者總數：" : String).data ++ ((fmt v6).data ++
              (("\n- 頁面瀏覽次數：" : String).data ++ (fmt v7).data)))))) :=
            countOccur_self_append_pos _ _ (by decide)
          _ ≤ _ := by
            rw [hshape]
            exact countOccur_append_right_le _ _ _
      exact Nat.le_antisymm (hup.trans (Nat.le_of_eq how)) hlow
    · rw [countOccur_buildMsg _ (by decide) (by decide) _ hdate (ymd_ne day)]
      decide
    · rw [countOccur_buildMsg _ (by decide) (by decide) _ hdate (ymd_ne day)]
      decide
    · rw [countOccur_buildMsg _ (by decide) (by decide) _ hdate (ymd_ne day)]
      decide
    · rw [countOccur_buildMsg _ (by decide) (by decide) _ hdate (ymd_ne day)]
      decide
    · rw [countOccur_buildMsg _ (by decide) (by decide) _ hdate (ymd_ne day)]
      decide
    · rw [countOccur_buildMsg _ (by decide) (by decide) _ hdate (ymd_ne day)]
      decide
    · rw [countOccur_buildMsg _ (by decide) (by decide) _ hdate (ymd_ne day)]
      decide
  · have hdd : ∀ c ∈ (ymd day).data, c ∉ ("N/A" : String).data := by
      intro c hc hcp
      have h1 := ymd_chars day c hc
      have h2 : c ∈ ['N', '/', 'A'] := hcp
      simp at h2
      rcases h2 with rfl | rfl | rfl <;> exact absurd h1 (by decide)
    unfold buildMsg
    simp only [String.data_append, List.append_assoc]
    rw [countOccur_split (by decide) (ymd_ne day) hdd]
    decide

theorem fbBody_trace (a p f : Except Unit Json) :
    (fbBody a p f).2 = [Call.fbAuth] ∨ (fbBody a p f).2 = [Call.fbAuth, Call.fbPage] ∨
    (fbBody a p f).2 = [Call.fbAuth, Call.fbPage, Call.fbFeed] := by
  unfold fbBody
  repeat' split
  all_goals simp

theorem get_fb_trace (pid tok : String) (a p f : Except Unit Json) :
    (get_fb_stable_stats pid tok a p f).2 = (fbBody a p f).2 := by
  unfold get_fb_stable_stats
  split <;> rename_i heq <;> rw [heq]

theorem fb_trace_no_push (pid tok : String) (a p f : Except Unit Json) :
    ((get_fb_stable_stats pid tok a p f).2).filter (fun c => isPush c) = [] := by
  rw [get_fb_trace]
  rcases fbBody_trace a p f with h | h | h <;> rw [h] <;> rfl

theorem fb_trace_no_window (pid tok : String) (a p f : Except Unit Json) :
    ((get_fb_stable_stats pid tok a p f).2).filterMap callWindow = [] := by
  rw [get_fb_trace]
  rcases fbBody_trace a p f with h | h | h <;> rw [h] <;> rfl

theorem ig_trace (igid tok s u : String) (r : Except Unit Json) :
    (get_ig_insights igid tok s u r).2 = if igid = "" then [] else [Call.igCall s u] := by
  unfold get_ig_insights
  by_cases h : igid = ""
  · simp [h]
  · rw [if_neg h, if_neg h]
    rcases r with e | rj
    · rfl
    · cases h2 : igParse rj <;> simp [h2]

theorem ga_trace (pid cj s u : String) (rep : Except Unit (List Ga4Row)) :
    (ga4_yesterday pid cj s u rep).2 = [Call.ga4Call s u] := by
  unfold ga4_yesterday
  rcases rep with e | rows
  · rfl
  · cases rows <;> rfl

theorem mainFB_no_push (env : Env) (w : World) :
    ((mainFB env w).2).filter (fun c => isPush c) = [] := by
  unfold mainFB
  split
  · exact fb_trace_no_push _ _ _ _ _
  · rfl

theorem mainIG_no_push (env : Env) (tz : Int) (w : World) :
    ((mainIG env tz w).2).filter (fun c => isPush c) = [] := by
  unfold mainIG
  split
  · rw [ig_trace]
    split <;> rfl
  · rfl

theorem mainGA_no_push (env : Env) (tz : Int) (w : World) :
    ((mainGA env tz w).2).filter (fun c => isPush c) = [] := by
  unfold mainGA
  split
  · rw [ga_trace]
    rfl
  · rfl

theorem mainFB_no_window (env : Env) (w : World) :
    ((mainFB env w).2).filterMap callWindow = [] := by
  unfold mainFB
  split
  · exact fb_trace_no_window _ _ _ _ _
  · rfl

theorem mainIG_window (env : Env) (tz : Int) (w : World) :
    ((mainIG env tz w).2).filterMap callWindow = [] ∨
    ((mainIG env tz w).2).filterMap callWindow = [(sinceOf tz w, untilOf tz w)] := by
  unfold mainIG
  split
  · rw [ig_trace]
    split
    · exact Or.inl rfl
    · exact Or.inr rfl
  · exact Or.inl rfl

theorem mainGA_window (env : Env) (tz : Int) (w : World) :
    ((mainGA env tz w).2).filterMap callWindow = [] ∨
    ((mainGA env tz w).2).filterMap callWindow = [(sinceOf tz w, untilOf tz w)] := by
  unfold mainGA
  split
  · rw [ga_trace]
    exact Or.inr rfl
  · exact Or.inl rfl

/-- Claim C1 counterexample: the GA4 fetcher does not catch provider errors —
when the report client raises, `ga4_yesterday` propagates the exception to
the caller instead of returning absent (None) slots. -/
theorem c1_ga4_propagates_cex :
    (ga4_yesterday "prop" "cred" "2024-01-01" "2024-01-01" (Except.error ())).1 =
      Except.error () := rfl

/-- Claim C1 (amended): the Facebook and Instagram fetchers return normally
with absent (None) slots on every provider behaviour that raises inside their
`try` blocks (network error, unexpected body shape, type errors), and Instagram
also on a whole-call error; but the GA4 fetcher propagates every exception of
the provider client to the caller — only its zero-row response maps to
all-absent slots. -/
theorem c1_error_absorption (pid tok igid s u : String)
    (authRes pRes fRes : Except Unit Json) (e : Unit) (rJson : Json) :
    ((fbBody authRes pRes fRes).1 = Except.error e →
      (get_fb_stable_stats pid tok authRes pRes fRes).1 = (none, none)) ∧
    (get_ig_insights igid tok s u (Except.error e)).1 = (none, none) ∧
    (igParse rJson = Except.error e →
      (get_ig_insights igid tok s u (Except.ok rJson)).1 = (none, none)) ∧
    (ga4_yesterday pid tok s u (Except.ok [])).1 = Except.ok (none, none, none) ∧
    (ga4_yesterday pid tok s u (Except.error e)).1 = Except.error e := by
  refine ⟨?_, ?_, ?_, rfl, rfl⟩
  · intro h
    unfold get_fb_stable_stats
    rcases hfb : fbBody authRes pRes fRes with ⟨r, t⟩
    rw [hfb] at h
    simp at h
    rw [h]
  · unfold get_ig_insights
    split <;> rfl
  · intro h
    unfold get_ig_insights
    split
    · rfl
    · simp [h]

/-- Claim C2 counterexample: with every Facebook call succeeding and the posts
feed containing no data, the interaction metric is the present integer 0, not
absent — refuting "never the integer 0". -/
theorem c2_empty_feed_zero_cex :
    (get_fb_stable_stats "pg" "tok" okAuth
      (Except.ok (Json.jobj [("followers_count", Json.jint 5)])) emptyFeed).1 =
      (some 5, some 0) := rfl

/-- Claim C2 (amended): a missing metric field or a whole-call error yields an
absent (None) value, never 0 — with one exception: the Facebook interaction
metric is the present integer 0, not absent, whenever the feed call succeeds
and contains no post data. -/
theorem c2_absent_not_zero (pid tok igid s u : String) (e : Unit)
    (p f : Except Unit Json) (r : Int) :
    (get_fb_stable_stats pid tok (Except.error e) p f).1 = (none, none) ∧
    (get_fb_stable_stats pid tok okAuth (Except.ok (Json.jobj [])) emptyFeed).1.1 = none ∧
    (get_ig_insights igid tok s u (Except.error e)).1 = (none, none) ∧
    (get_ig_insights "ig" tok s u (Except.ok (Json.jobj [("data", Json.jarr
      [Json.jobj [("name", Json.jstr "reach"),
        ("values", Json.jarr [Json.jobj [("value", Json.jint r)]])]])]))).1.2 = none ∧
    (get_fb_stable_stats pid tok okAuth
      (Except.ok (Json.jobj [("followers_count", Json.jint 5)])) emptyFeed).1.2 = some 0 := by
  refine ⟨rfl, rfl, ?_, rfl, rfl⟩
  unfold get_ig_insights
  split <;> rfl

/-- Claim C3 counterexample: a float-valued GA4 metric string is not accepted
and truncated: `int("2.5")` raises `ValueError`, which `ga4_yesterday`
propagates, instead of the value being truncated to 2 (or treated as absent). -/
theorem c3_ga4_float_cex :
    (ga4_yesterday "prop" "cred" "2024-01-01" "2024-01-01"
      (Except.ok [⟨["2.5", "3", "4"]⟩])).1 = Except.error () := rfl

/-- Claim C3 (amended): for the Facebook fan-count and Instagram reach and
impressions fields, an integer or float JSON value is accepted and truncated
toward zero, a boolean is also accepted (a Python bool is an int: True is 1,
False is 0), and a string, null, array or object yields an absent value; for
Facebook the coercion applies to the value selected by the truthiness
fallback, so a present integer 0 in followers_count with fan_count missing
yields an absent value.  GA4 metric values are protobuf strings parsed with
`int(...)`: an integer string is accepted, and any other string (a float
rendering included) raises an exception that propagates. -/
theorem c3_numeric_coercion (tok s u : String) (q : Rat) (m : Int) (b : Bool)
    (stt : String) (v : Json) (xs : List Json) (fs : List (String × Json)) :
    igReachOf tok s u (Json.jint m) = some m ∧
    igReachOf tok s u (Json.jfloat q) = some (ratTrunc q) ∧
    igReachOf tok s u (Json.jbool b) = some (if b then 1 else 0) ∧
    igReachOf tok s u (Json.jstr stt) = none ∧
    igReachOf tok s u Json.jnull = none ∧
    igReachOf tok s u (Json.jarr xs) = none ∧
    igReachOf tok s u (Json.jobj fs) = none ∧
    fbFansOf tok v = numOrNone (pyOr (some v) none) ∧
    fbFansOf tok (Json.jint 0) = none ∧
    (ga4_yesterday "prop" "cred" s u (Except.ok [⟨["12", "3", "4"]⟩])).1 =
      Except.ok (some 12, some 3, some 4) ∧
    (ga4_yesterday "prop" "cred" s u (Except.ok [⟨["x", "3", "4"]⟩])).1 =
      Except.error () := by
  refine ⟨rfl, rfl, rfl, rfl, rfl, rfl, rfl, rfl, rfl, rfl, rfl⟩

/-- Claim C4 counterexample: a failure occurring after one metric of the pair
was already obtained does not preserve it: with the page call succeeding
(followers_count = 100) and the feed call raising, the whole Facebook result
is (None, None) — the already-obtained fans value is discarded. -/
theorem c4_fb_feed_error_cex :
    (get_fb_stable_stats "pg" "tok" okAuth
      (Except.ok (Json.jobj [("followers_count", Json.jint 100)])) (Except.error ())).1 =
      (none, none) := rfl

/-- Claim C4 (amended): within one provider response, a missing metric field
is evaluated independently — the obtained metrics keep their values and only
the missing ones are absent (IG: reach kept, impressions absent; FB: fans
absent, interactions kept) — but a raised exception mid-call (the FB feed
call failing after the fans were obtained) aborts the provider's whole try
block, so both slots come back absent. -/
theorem c4_partial_success (tok s u : String) (r : Int) :
    (get_ig_insights "ig" tok s u (Except.ok (Json.jobj [("data", Json.jarr
      [Json.jobj [("name", Json.jstr "reach"),
        ("values", Json.jarr [Json.jobj [("value", Json.jint r)]])]])]))).1 =
      (some r, none) ∧
    (get_fb_stable_stats "pg" tok okAuth (Except.ok (Json.jobj []))
      (Except.ok (Json.jobj [("data", Json.jarr [Json.jobj
        [("reactions", Json.jobj [("summary", Json.jobj [("total_count", Json.jint 3)])]),
         ("comments", Json.jobj [("summary", Json.jobj [("total_count", Json.jint 2)])])]])]))).1 =
      (none, some 5) ∧
    (get_fb_stable_stats "pg" tok okAuth
      (Except.ok (Json.jobj [("followers_count", Json.jint 100)])) (Except.error ())).1 =
      (none, none) := ⟨rfl, rfl, rfl⟩

/-- Claim C10: the Facebook total-fans value is `followers_count or fan_count`
under Python truthiness: a followers_count equal to 0 (or JSON null) is falsy,
so the fan_count field is used instead; consequently a genuine zero
followers_count is never reported as 0 while fan_count is non-zero. -/
theorem c10_followers_truthy_fallback (tok : String) (m : Int) (v : Json) :
    (get_fb_stable_stats "pg" tok okAuth
      (Except.ok (Json.jobj [("followers_count", Json.jint 0), ("fan_count", v)]))
      emptyFeed).1.1 = numOrNone (some v) ∧
    (get_fb_stable_stats "pg" tok okAuth
      (Except.ok (Json.jobj [("followers_count", Json.jint 0), ("fan_count", Json.jint m)]))
      emptyFeed).1.1 = some m ∧
    (get_fb_stable_stats "pg" tok okAuth
      (Except.ok (Json.jobj [("followers_count", Json.jnull), ("fan_count", Json.jint m)]))
      emptyFeed).1.1 = some m := ⟨rfl, rfl, rfl⟩

/-- Claim C5: when the messaging channel token or the recipient id is empty
(or unset — `os.environ.get` defaults to the empty string), the run raises
before any HTTP request is issued: the outcome is an error and the request
trace is empty. -/
theorem c5_push_creds_required (env : Env) (tz : Int) (w : World)
    (h : env.line_token = "" ∨ env.line_to = "") :
    mainRun env tz w = (Except.error (), []) := by
  unfold mainRun
  rw [if_pos h]

/-- Witness for C5 at a concrete configuration with an empty channel token. -/
theorem c5_push_creds_required_witness :
    mainRun ⟨"", "to", "m", "p", "i", "g", "c"⟩ 0 wFix = (Except.error (), []) :=
  c5_push_creds_required ⟨"", "to", "m", "p", "i", "g", "c"⟩ 0 wFix (Or.inl rfl)

/-- Claim C6: for a run that reaches the push step, whenever the push
endpoint's response is anything but 200 the run ends in a raised error; the
request trace contains exactly one push request — no retry — and that request
carries the fully constructed message. -/
theorem c6_push_failure_fatal (env : Env) (tz : Int) (w : World)
    (ga : Option Int × Option Int × Option Int) (st : Nat)
    (h1 : env.line_token ≠ "") (h2 : env.line_to ≠ "")
    (hga : (mainGA env tz w).1 = Except.ok ga)
    (hst : w.pushResult = Except.ok st) (hne : st ≠ 200) :
    (mainRun env tz w).1 = Except.error () ∧
    (mainRun env tz w).2.filter (fun c => isPush c) =
      [Call.pushCall (buildMsg (sinceOf tz w)
        (mainFB env w).1.1 (mainFB env w).1.2
        (mainIG env tz w).1.1 (mainIG env tz w).1.2 ga.1 ga.2.1 ga.2.2)] := by
  have hcond : ¬(env.line_token = "" ∨ env.line_to = "") := by
    intro hcase
    rcases hcase with hcase | hcase
    · exact h1 hcase
    · exact h2 hcase
  rcases hga2 : mainGA env tz w with ⟨res, gt⟩
  have hres : res = Except.ok ga := by rw [hga2] at hga; exact hga
  subst hres
  have hgt : gt.filter (fun c => isPush c) = [] := by
    have h := mainGA_no_push env tz w
    rw [hga2] at h
    exact h
  constructor
  · unfold mainRun
    rw [if_neg hcond, hga2]
    simp [line_push, hst, hne]
  · unfold mainRun
    rw [if_neg hcond, hga2]
    dsimp only
    simp only [List.filter_append]
    rw [mainFB_no_push, mainIG_no_push, hgt]
    rfl

/-- Witness for C6: with only the LINE credentials configured and the push
endpoint answering 403, the run errors after building the all-absent message
and issues exactly one push request. -/
theorem c6_push_failure_fatal_witness :
    (mainRun envFix 0 wPushFail).1 = Except.error () ∧
    (mainRun envFix 0 wPushFail).2.filter (fun c => isPush c) =
      [Call.pushCall (buildMsg (sinceOf 0 wPushFail)
        (mainFB envFix wPushFail).1.1 (mainFB envFix wPushFail).1.2
        (mainIG envFix 0 wPushFail).1.1 (mainIG envFix 0 wPushFail).1.2
        none none none)] :=
  c6_push_failure_fatal envFix 0 wPushFail (none, none, none) 403
    (by decide) (by decide) rfl rfl (by decide)

/-- Claim C8: the computed date window has since = until, both equal to the
current UTC+8 date minus one day, however the host time zone is set (the
whole run is invariant under changing the host zone offset), and every
date-windowed provider request the run issues carries exactly that pair. -/
theorem c8_date_window (env : Env) (t1 t2 : Int) (w : World) :
    mainRun env t1 w = mainRun env t2 w ∧
    sinceOf t1 w = untilOf t1 w ∧
    sinceOf t1 w = ymd (Int.fdiv (w.nowEpoch + TZ_TAIPEI) 86400 - 1) ∧
    ((mainRun env t1 w).2.filterMap callWindow).all
      (fun pr => pr.1 == sinceOf t1 w && pr.2 == sinceOf t1 w) = true := by
  refine ⟨rfl, rfl, rfl, ?_⟩
  unfold mainRun
  split
  · rfl
  · rcases hga2 : mainGA env t1 w with ⟨res, gt⟩
    have hgt : gt.filterMap callWindow = [] ∨
        gt.filterMap callWindow = [(sinceOf t1 w, untilOf t1 w)] := by
      have h := mainGA_window env t1 w
      rw [hga2] at h
      exact h
    rcases res with e | ga
    · dsimp only
      simp only [List.filterMap_append, List.all_append]
      rw [mainFB_no_window]
      rcases mainIG_window env t1 w with hig | hig <;> rcases hgt with hgt | hgt <;>
        rw [hig, hgt] <;> simp [untilOf, sinceOf]
    · dsimp only
      simp only [List.filterMap_append, List.all_append, List.filterMap_cons,
        List.filterMap_nil]
      rw [mainFB_no_window]
      rcases mainIG_window env t1 w with hig | hig <;> rcases hgt with hgt | hgt <;>
        rw [hig, hgt] <;> simp [untilOf, sinceOf, callWindow]

/-- Claim C9: a provider's fetcher runs only when all of that provider's
credentials are non-empty (FB: social token and page id; IG: social token and
IG user id; GA4: property id and credential payload); a provider with a
missing credential is skipped with an empty trace and fully absent metrics,
and — as in the spec's scenario — with the social token absent the FB and IG
slots of the pushed message are all "N/A" while the GA4 section carries
whatever GA4 returned. -/
theorem c9_credential_gating (env : Env) (tz : Int) (w : World)
    (ga : Option Int × Option Int × Option Int) :
    ((env.meta_token = "" ∨ env.fb_page_id = "") → mainFB env w = ((none, none), [])) ∧
    ((env.meta_token = "" ∨ env.ig_user_id = "") → mainIG env tz w = ((none, none), [])) ∧
    ((env.ga4_property_id = "" ∨ env.ga4_credentials_json = "") →
      mainGA env tz w = (Except.ok (none, none, none), [])) ∧
    (env.meta_token ≠ "" ∧ env.fb_page_id ≠ "" →
      mainFB env w = get_fb_stable_stats env.fb_page_id env.meta_token
        w.fbAuthRes w.fbPageRes w.fbFeedRes) ∧
    (env.meta_token = "" → env.line_token ≠ "" → env.line_to ≠ "" →
      (mainGA env tz w).1 = Except.ok ga →
      (mainRun env tz w).2.filter (fun c => isPush c) =
        [Call.pushCall (buildMsg (sinceOf tz w) none none none none
          ga.1 ga.2.1 ga.2.2)]) := by
  refine ⟨?_, ?_, ?_, ?_, ?_⟩
  · intro h
    unfold mainFB
    rcases h with h | h <;> simp [h]
  · intro h
    unfold mainIG
    rcases h with h | h <;> simp [h]
  · intro h
    unfold mainGA
    rcases h with h | h <;> simp [h]
  · intro h
    unfold mainFB
    rw [if_pos h]
  · intro hm h1 h2 hga
    have hcond : ¬(env.line_token = "" ∨ env.line_to = "") := by
      intro hcase
      rcases hcase with hcase | hcase
      · exact h1 hcase
      · exact h2 hcase
    have hfb : mainFB env w = ((none, none), []) := by
      unfold mainFB
      simp [hm]
    have hig : mainIG env tz w = ((none, none), []) := by
      unfold mainIG
      simp [hm]
    rcases hga2 : mainGA env tz w with ⟨res, gt⟩
    have hres : res = Except.ok ga := by rw [hga2] at hga; exact hga
    subst hres
    have hgt : gt.filter (fun c => isPush c) = [] := by
      have h := mainGA_no_push env tz w
      rw [hga2] at h
      exact h
    unfold mainRun
    rw [if_neg hcond, hga2, hfb, hig]
    dsimp only
    simp only [List.filter_append, List.filter_nil, List.nil_append]
    rw [hgt]
    rfl
